import Mathlib

/-!
# Verification of the 5G NR RRC simulation engine

A shallow embedding of `rrc_simulation_engine.py` (class `RRCSimulationEngine`):
the RRC state machine, its timers, energy accounting, bounded history and
event buffers, and the public operations `tick`, `trigger_data_request`,
`trigger_paging`, `set_traffic_profile`, `get_state`/`get_history`, `reset`.

Modelling conventions:
* Python ints that are only ever non-negative (timers, tick counts, burst
  durations, energies) are `Nat`; the energy table has integer entries, so the
  float accumulator is exact and modelled as `Nat`.
* Float timestamps `simulation_time / 1000.0` are modelled as exact rationals
  `(simulation_time : ℚ) / 1000`.
* `str.lower()` is modelled by `String.toLower` (ASCII lowering, which agrees
  with Python on the profile names involved).
* The `ValueError` raised by `set_traffic_profile` is modelled by
  `Except String`.
-/

/-- RRC State enumeration (Python `RRCState`, an `IntEnum`). -/
inductive RRCState where
  | IDLE
  | CONNECTED
  | INACTIVE
deriving DecidableEq, Repr

/-- `int(state)` — the `IntEnum` values IDLE = 0, CONNECTED = 1, INACTIVE = 2. -/
def RRCState.toNat : RRCState → Nat
  | .IDLE => 0
  | .CONNECTED => 1
  | .INACTIVE => 2

/-- `state.name` of the Python `IntEnum`. -/
def RRCState.name : RRCState → String
  | .IDLE => "IDLE"
  | .CONNECTED => "CONNECTED"
  | .INACTIVE => "INACTIVE"

/-- Traffic profile types (Python `TrafficProfile`). -/
inductive TrafficProfile where
  | STREAMING
  | IOT
deriving DecidableEq, Repr

/-- `TrafficProfile.name`. -/
def TrafficProfile.name : TrafficProfile → String
  | .STREAMING => "STREAMING"
  | .IOT => "IOT"

/-- `POWER_CONSUMPTION` dict: units of energy per tick in each state. -/
def POWER_CONSUMPTION : RRCState → Nat
  | .IDLE => 0
  | .CONNECTED => 100
  | .INACTIVE => 10

/-- `TIMER_THRESHOLDS` dict: adaptive inactivity thresholds (ticks). -/
def TIMER_THRESHOLDS : TrafficProfile → Nat
  | .STREAMING => 10000
  | .IOT => 200

/-- `LONG_INACTIVITY_THRESHOLDS` dict: INACTIVE → IDLE thresholds (ticks). -/
def LONG_INACTIVITY_THRESHOLDS : TrafficProfile → Nat
  | .STREAMING => 20000
  | .IOT => 5000

/-- The `state_durations` dict, keyed by the three states. -/
structure StateDurations where
  idle : Nat
  connected : Nat
  inactive : Nat
deriving DecidableEq, Repr

/-- `self.state_durations[self.state] += 1`. -/
def StateDurations.bump (d : StateDurations) : RRCState → StateDurations
  | .IDLE => { d with idle := d.idle + 1 }
  | .CONNECTED => { d with connected := d.connected + 1 }
  | .INACTIVE => { d with inactive := d.inactive + 1 }

/-- The mutable fields of Python class `RRCSimulationEngine`. -/
structure Engine where
  state : RRCState
  previous_state : RRCState
  inactivity_timer : Nat
  long_inactivity_timer : Nat
  simulation_time : Nat
  traffic_profile : TrafficProfile
  inactivity_threshold : Nat
  long_inactivity_threshold : Nat
  data_request : Bool
  paging_request : Bool
  data_active : Bool
  data_burst_duration : Nat
  total_energy : Nat
  max_history_length : Nat
  state_history : List Nat
  data_request_history : List Nat
  time_history : List ℚ
  event_log : List (ℚ × String)
  state_durations : StateDurations
  transition_count : Nat
deriving DecidableEq, Repr

/-- `__init__`: the freshly constructed engine. -/
def initEngine : Engine where
  state := .IDLE
  previous_state := .IDLE
  inactivity_timer := 0
  long_inactivity_timer := 0
  simulation_time := 0
  traffic_profile := .IOT
  inactivity_threshold := TIMER_THRESHOLDS .IOT
  long_inactivity_threshold := LONG_INACTIVITY_THRESHOLDS .IOT
  data_request := false
  paging_request := false
  data_active := false
  data_burst_duration := 0
  total_energy := 0
  max_history_length := 100000
  state_history := []
  data_request_history := []
  time_history := []
  event_log := []
  state_durations := ⟨0, 0, 0⟩
  transition_count := 0

/-- `_log_event`: append a timestamped message, keep only the last 1000. -/
def log_event (message : String) (e : Engine) : Engine :=
  let log := e.event_log ++ [((e.simulation_time : ℚ) / 1000, message)]
  { e with event_log := if log.length > 1000 then log.drop (log.length - 1000) else log }

/-- `_update_timers`: inactivity timer, long-inactivity timer, then the data
burst countdown — in this order, as in the source. -/
def update_timers (e : Engine) : Engine :=
  let e1 :=
    if e.state = RRCState.CONNECTED then
      if e.data_active then
        { e with inactivity_timer := 0 }
      else
        { e with inactivity_timer := e.inactivity_timer + 1 }
    else
      { e with inactivity_timer := 0 }
  let e2 :=
    if e1.state = RRCState.INACTIVE then
      { e1 with long_inactivity_timer := e1.long_inactivity_timer + 1 }
    else
      { e1 with long_inactivity_timer := 0 }
  if e2.data_burst_duration > 0 then
    { e2 with data_burst_duration := e2.data_burst_duration - 1, data_active := true }
  else
    { e2 with data_active := false }

/-- `_update_state_machine`: the 3GPP transition logic, one transition at most,
then clear the data-request latch. -/
def update_state_machine (e : Engine) : Engine :=
  let old := e.state
  let e1 :=
    if e.state = RRCState.IDLE then
      if e.data_request || e.paging_request then
        log_event ("Transition: IDLE -> CONNECTED (trigger: " ++
          (if e.data_request then "data" else "paging") ++ ")")
          { e with state := RRCState.CONNECTED }
      else e
    else if e.state = RRCState.CONNECTED then
      if e.inactivity_threshold ≤ e.inactivity_timer ∧ e.data_active = false then
        log_event ("Transition: CONNECTED -> INACTIVE (inactivity: " ++
          toString e.inactivity_timer ++ "ms)")
          { e with state := RRCState.INACTIVE }
      else e
    else
      if e.data_request then
        log_event "Transition: INACTIVE -> CONNECTED (fast resume)"
          { e with state := RRCState.CONNECTED }
      else if e.long_inactivity_threshold ≤ e.long_inactivity_timer then
        log_event ("Transition: INACTIVE -> IDLE (long inactivity: " ++
          toString e.long_inactivity_timer ++ "ms)")
          { e with state := RRCState.IDLE }
      else e
  let e2 :=
    if old ≠ e1.state then
      { e1 with previous_state := old, transition_count := e1.transition_count + 1 }
    else e1
  { e2 with data_request := false }

/-- `_calculate_energy`: integrate the per-state power table. -/
def calculate_energy (e : Engine) : Engine :=
  { e with total_energy := e.total_energy + POWER_CONSUMPTION e.state }

/-- `_record_history`: bulk-evict the oldest tenth when at capacity, then
append one sample to each of the three parallel sequences. -/
def record_history (e : Engine) : Engine :=
  let e1 :=
    if e.max_history_length ≤ e.state_history.length then
      let trim_size := e.max_history_length / 10
      { e with
        state_history := e.state_history.drop trim_size
        data_request_history := e.data_request_history.drop trim_size
        time_history := e.time_history.drop trim_size }
    else e
  { e1 with
    state_history := e1.state_history ++ [e1.state.toNat]
    data_request_history := e1.data_request_history ++
      [if e1.data_active || e1.data_request then 1 else 0]
    time_history := e1.time_history ++ [(e1.simulation_time : ℚ) / 1000] }

/-- `tick`: one 1 ms simulation step, in the source's order of operations. -/
def tick (e : Engine) : Engine :=
  let e1 := update_timers e
  let e2 := update_state_machine e1
  let e3 := calculate_energy e2
  let e4 := { e3 with state_durations := e3.state_durations.bump e3.state }
  let e5 := record_history e4
  let e6 := { e5 with simulation_time := e5.simulation_time + 1 }
  { e6 with paging_request := false }

/-- `trigger_data_request(burst_duration_ms)`: latch the request, overwrite the
burst countdown, log. -/
def trigger_data_request (burst_duration_ms : Nat) (e : Engine) : Engine :=
  log_event ("Data request triggered (burst: " ++ toString burst_duration_ms ++ "ms)")
    { e with data_request := true, data_burst_duration := burst_duration_ms }

/-- `trigger_paging`: latch a one-shot paging event, log. -/
def trigger_paging (e : Engine) : Engine :=
  log_event "Paging request triggered" { e with paging_request := true }

/-- `profile.lower()`: ASCII case folding, character by character (the same
function as `String.toLower`, written via `List.map` so that it computes in the
kernel). -/
def str_lower (s : String) : String := ⟨s.data.map Char.toLower⟩

/-- `set_traffic_profile(profile)`: case-insensitive name match; swaps the
profile and both thresholds, or raises `ValueError` (modelled as `.error`). -/
def set_traffic_profile (profile : String) (e : Engine) : Except String Engine :=
  if str_lower profile = "streaming" then
    .ok (log_event "Traffic profile: STREAMING (CONN→INACT: 10s, INACT→IDLE: 20s)"
      { e with traffic_profile := .STREAMING
               inactivity_threshold := TIMER_THRESHOLDS .STREAMING
               long_inactivity_threshold := LONG_INACTIVITY_THRESHOLDS .STREAMING })
  else if str_lower profile = "iot" then
    .ok (log_event "Traffic profile: IoT (CONN→INACT: 200ms, INACT→IDLE: 5s)"
      { e with traffic_profile := .IOT
               inactivity_threshold := TIMER_THRESHOLDS .IOT
               long_inactivity_threshold := LONG_INACTIVITY_THRESHOLDS .IOT })
  else
    .error ("Unknown traffic profile: " ++ profile)

/-- The three parallel arrays returned by `get_history`. -/
structure History where
  time : List ℚ
  state : List Nat
  data_request : List Nat
deriving DecidableEq, Repr

/-- The source's linear scan: index of the first timestamp `≥ cutoff`
(`for i, t in enumerate(...): if t >= cutoff: start_idx = i; break`). -/
def first_ge (cutoff : ℚ) : List ℚ → Option Nat
  | [] => none
  | t :: ts => if cutoff ≤ t then some 0 else (first_ge cutoff ts).map (· + 1)

/-- `get_history(last_n_seconds)`: suffix of the three histories from the first
sample at or after `current_time - last_n_seconds`; the scan's default start
index is 0 when no sample qualifies. -/
def get_history (last_n_seconds : ℚ) (e : Engine) : History :=
  if e.time_history = [] then
    ⟨[], [], []⟩
  else
    let current_time : ℚ := (e.simulation_time : ℚ) / 1000
    let cutoff_time := current_time - last_n_seconds
    let start_idx := (first_ge cutoff_time e.time_history).getD 0
    ⟨e.time_history.drop start_idx,
     e.state_history.drop start_idx,
     e.data_request_history.drop start_idx⟩

/-- `reset`: re-run `__init__`, then log the reset event. -/
def reset (_e : Engine) : Engine :=
  log_event "Simulation reset" initEngine

/-- The engine's public mutating operations, for quantifying over arbitrary
usage sequences. -/
inductive Op where
  | tick
  | data (burst_duration_ms : Nat)
  | paging
  | profile (name : String)
  | reset
deriving DecidableEq, Repr

/-- Apply one operation; a `set_traffic_profile` error propagates to the caller
with the engine unmodified. -/
def applyOp (e : Engine) : Op → Engine
  | .tick => tick e
  | .data d => trigger_data_request d e
  | .paging => trigger_paging e
  | .profile s =>
      match set_traffic_profile s e with
      | .ok e2 => e2
      | .error _ => e
  | .reset => reset e

/-- The engine reached from construction by a sequence of operations. -/
def run (ops : List Op) : Engine :=
  ops.foldl applyOp initEngine

/-- Iterated ticks. -/
def tickN : Nat → Engine → Engine
  | 0, e => e
  | n + 1, e => tickN n (tick e)

/-- An engine whose three history sequences stand exactly at (a small)
capacity, used to exhibit the bulk eviction of `_record_history`. -/
def capEngine : Engine :=
  { initEngine with
      max_history_length := 10
      state_history := List.replicate 10 0
      data_request_history := List.replicate 10 0
      time_history := List.replicate 10 0 }

/-! ## Frame lemmas: which fields each internal step leaves unchanged -/

@[simp] lemma log_event_state (m : String) (e : Engine) : (log_event m e).state = e.state := rfl
@[simp] lemma log_event_previous_state (m : String) (e : Engine) :
    (log_event m e).previous_state = e.previous_state := rfl
@[simp] lemma log_event_inactivity_timer (m : String) (e : Engine) :
    (log_event m e).inactivity_timer = e.inactivity_timer := rfl
@[simp] lemma log_event_long_inactivity_timer (m : String) (e : Engine) :
    (log_event m e).long_inactivity_timer = e.long_inactivity_timer := rfl
@[simp] lemma log_event_simulation_time (m : String) (e : Engine) :
    (log_event m e).simulation_time = e.simulation_time := rfl
@[simp] lemma log_event_traffic_profile (m : String) (e : Engine) :
    (log_event m e).traffic_profile = e.traffic_profile := rfl
@[simp] lemma log_event_inactivity_threshold (m : String) (e : Engine) :
    (log_event m e).inactivity_threshold = e.inactivity_threshold := rfl
@[simp] lemma log_event_long_inactivity_threshold (m : String) (e : Engine) :
    (log_event m e).long_inactivity_threshold = e.long_inactivity_threshold := rfl
@[simp] lemma log_event_data_request (m : String) (e : Engine) :
    (log_event m e).data_request = e.data_request := rfl
@[simp] lemma log_event_paging_request (m : String) (e : Engine) :
    (log_event m e).paging_request = e.paging_request := rfl
@[simp] lemma log_event_data_active (m : String) (e : Engine) :
    (log_event m e).data_active = e.data_active := rfl
@[simp] lemma log_event_data_burst_duration (m : String) (e : Engine) :
    (log_event m e).data_burst_duration = e.data_burst_duration := rfl
@[simp] lemma log_event_total_energy (m : String) (e : Engine) :
    (log_event m e).total_energy = e.total_energy := rfl
@[simp] lemma log_event_max_history_length (m : String) (e : Engine) :
    (log_event m e).max_history_length = e.max_history_length := rfl
@[simp] lemma log_event_state_history (m : String) (e : Engine) :
    (log_event m e).state_history = e.state_history := rfl
@[simp] lemma log_event_data_request_history (m : String) (e : Engine) :
    (log_event m e).data_request_history = e.data_request_history := rfl
@[simp] lemma log_event_time_history (m : String) (e : Engine) :
    (log_event m e).time_history = e.time_history := rfl
@[simp] lemma log_event_state_durations (m : String) (e : Engine) :
    (log_event m e).state_durations = e.state_durations := rfl
@[simp] lemma log_event_transition_count (m : String) (e : Engine) :
    (log_event m e).transition_count = e.transition_count := rfl

/-- The event log after `_log_event` has `min (n+1) 1000` entries. -/
lemma log_event_length (m : String) (e : Engine) :
    (log_event m e).event_log.length = min (e.event_log.length + 1) 1000 := by
  unfold log_event
  dsimp only
  split
  all_goals simp_all [List.length_drop]
  all_goals omega

@[simp] lemma update_timers_state (e : Engine) : (update_timers e).state = e.state := by
  simp only [update_timers]
  split_ifs <;> rfl

@[simp] lemma update_timers_previous_state (e : Engine) :
    (update_timers e).previous_state = e.previous_state := by
  simp only [update_timers]
  split_ifs <;> rfl

@[simp] lemma update_timers_simulation_time (e : Engine) :
    (update_timers e).simulation_time = e.simulation_time := by
  simp only [update_timers]
  split_ifs <;> rfl

@[simp] lemma update_timers_traffic_profile (e : Engine) :
    (update_timers e).traffic_profile = e.traffic_profile := by
  simp only [update_timers]
  split_ifs <;> rfl

@[simp] lemma update_timers_inactivity_threshold (e : Engine) :
    (update_timers e).inactivity_threshold = e.inactivity_threshold := by
  simp only [update_timers]
  split_ifs <;> rfl

@[simp] lemma update_timers_long_inactivity_threshold (e : Engine) :
    (update_timers e).long_inactivity_threshold = e.long_inactivity_threshold := by
  simp only [update_timers]
  split_ifs <;> rfl

@[simp] lemma update_timers_data_request (e : Engine) :
    (update_timers e).data_request = e.data_request := by
  simp only [update_timers]
  split_ifs <;> rfl

@[simp] lemma update_timers_paging_request (e : Engine) :
    (update_timers e).paging_request = e.paging_request := by
  simp only [update_timers]
  split_ifs <;> rfl

@[simp] lemma update_timers_total_energy (e : Engine) :
    (update_timers e).total_energy = e.total_energy := by
  simp only [update_timers]
  split_ifs <;> rfl

@[simp] lemma update_timers_max_history_length (e : Engine) :
    (update_timers e).max_history_length = e.max_history_length := by
  simp only [update_timers]
  split_ifs <;> rfl

@[simp] lemma update_timers_state_history (e : Engine) :
    (update_timers e).state_history = e.state_history := by
  simp only [update_timers]
  split_ifs <;> rfl

@[simp] lemma update_timers_data_request_history (e : Engine) :
    (update_timers e).data_request_history = e.data_request_history := by
  simp only [update_timers]
  split_ifs <;> rfl

@[simp] lemma update_timers_time_history (e : Engine) :
    (update_timers e).time_history = e.time_history := by
  simp only [update_timers]
  split_ifs <;> rfl

@[simp] lemma update_timers_event_log (e : Engine) :
    (update_timers e).event_log = e.event_log := by
  simp only [update_timers]
  split_ifs <;> rfl

@[simp] lemma update_timers_state_durations (e : Engine) :
    (update_timers e).state_durations = e.state_durations := by
  simp only [update_timers]
  split_ifs <;> rfl

@[simp] lemma update_timers_transition_count (e : Engine) :
    (update_timers e).transition_count = e.transition_count := by
  simp only [update_timers]
  split_ifs <;> rfl

/-- The inactivity timer after `_update_timers`: the decision reads the
data-active flag of the *previous* tick (the countdown runs after it). -/
lemma update_timers_inactivity_timer (e : Engine) :
    (update_timers e).inactivity_timer =
      if e.state = RRCState.CONNECTED then
        (if e.data_active then 0 else e.inactivity_timer + 1)
      else 0 := by
  simp only [update_timers]
  split_ifs <;> rfl

/-- The long-inactivity timer after `_update_timers`. -/
lemma update_timers_long_inactivity_timer (e : Engine) :
    (update_timers e).long_inactivity_timer =
      if e.state = RRCState.INACTIVE then e.long_inactivity_timer + 1 else 0 := by
  simp only [update_timers]
  split_ifs <;> rfl

/-- The burst countdown after `_update_timers` (Nat subtraction: `0 - 1 = 0`). -/
lemma update_timers_data_burst_duration (e : Engine) :
    (update_timers e).data_burst_duration = e.data_burst_duration - 1 := by
  simp only [update_timers]
  split_ifs <;> simp_all

/-- The data-active flag after `_update_timers`: true exactly while the burst
countdown was still positive. -/
lemma update_timers_data_active (e : Engine) :
    (update_timers e).data_active = decide (0 < e.data_burst_duration) := by
  simp only [update_timers]
  split_ifs <;> simp_all


@[simp] lemma update_state_machine_inactivity_timer (e : Engine) :
    (update_state_machine e).inactivity_timer = e.inactivity_timer := by
  simp only [update_state_machine]
  split_ifs <;> rfl

@[simp] lemma update_state_machine_long_inactivity_timer (e : Engine) :
    (update_state_machine e).long_inactivity_timer = e.long_inactivity_timer := by
  simp only [update_state_machine]
  split_ifs <;> rfl

@[simp] lemma update_state_machine_simulation_time (e : Engine) :
    (update_state_machine e).simulation_time = e.simulation_time := by
  simp only [update_state_machine]
  split_ifs <;> rfl

@[simp] lemma update_state_machine_traffic_profile (e : Engine) :
    (update_state_machine e).traffic_profile = e.traffic_profile := by
  simp only [update_state_machine]
  split_ifs <;> rfl

@[simp] lemma update_state_machine_inactivity_threshold (e : Engine) :
    (update_state_machine e).inactivity_threshold = e.inactivity_threshold := by
  simp only [update_state_machine]
  split_ifs <;> rfl

@[simp] lemma update_state_machine_long_inactivity_threshold (e : Engine) :
    (update_state_machine e).long_inactivity_threshold = e.long_inactivity_threshold := by
  simp only [update_state_machine]
  split_ifs <;> rfl

@[simp] lemma update_state_machine_paging_request (e : Engine) :
    (update_state_machine e).paging_request = e.paging_request := by
  simp only [update_state_machine]
  split_ifs <;> rfl

@[simp] lemma update_state_machine_data_active (e : Engine) :
    (update_state_machine e).data_active = e.data_active := by
  simp only [update_state_machine]
  split_ifs <;> rfl

@[simp] lemma update_state_machine_data_burst_duration (e : Engine) :
    (update_state_machine e).data_burst_duration = e.data_burst_duration := by
  simp only [update_state_machine]
  split_ifs <;> rfl

@[simp] lemma update_state_machine_total_energy (e : Engine) :
    (update_state_machine e).total_energy = e.total_energy := by
  simp only [update_state_machine]
  split_ifs <;> rfl

@[simp] lemma update_state_machine_max_history_length (e : Engine) :
    (update_state_machine e).max_history_length = e.max_history_length := by
  simp only [update_state_machine]
  split_ifs <;> rfl

@[simp] lemma update_state_machine_state_history (e : Engine) :
    (update_state_machine e).state_history = e.state_history := by
  simp only [update_state_machine]
  split_ifs <;> rfl

@[simp] lemma update_state_machine_data_request_history (e : Engine) :
    (update_state_machine e).data_request_history = e.data_request_history := by
  simp only [update_state_machine]
  split_ifs <;> rfl

@[simp] lemma update_state_machine_time_history (e : Engine) :
    (update_state_machine e).time_history = e.time_history := by
  simp only [update_state_machine]
  split_ifs <;> rfl

@[simp] lemma update_state_machine_state_durations (e : Engine) :
    (update_state_machine e).state_durations = e.state_durations := by
  simp only [update_state_machine]
  split_ifs <;> rfl

/-- The data-request latch is cleared within `_update_state_machine`. -/
@[simp] lemma update_state_machine_data_request (e : Engine) :
    (update_state_machine e).data_request = false := by
  simp only [update_state_machine]

/-- Transition behaviour from `IDLE`. -/
lemma update_state_machine_state_of_idle (e : Engine) (hs : e.state = RRCState.IDLE) :
    (update_state_machine e).state =
      if e.data_request || e.paging_request then RRCState.CONNECTED else RRCState.IDLE := by
  simp only [update_state_machine, hs]
  split_ifs <;> simp_all

/-- Transition behaviour from `CONNECTED`. -/
lemma update_state_machine_state_of_connected (e : Engine) (hs : e.state = RRCState.CONNECTED) :
    (update_state_machine e).state =
      if e.inactivity_threshold ≤ e.inactivity_timer ∧ e.data_active = false then
        RRCState.INACTIVE
      else RRCState.CONNECTED := by
  simp only [update_state_machine, hs]
  split_ifs <;> simp_all

/-- Transition behaviour from `INACTIVE`: fast resume is checked first. -/
lemma update_state_machine_state_of_inactive (e : Engine) (hs : e.state = RRCState.INACTIVE) :
    (update_state_machine e).state =
      if e.data_request then RRCState.CONNECTED
      else if e.long_inactivity_threshold ≤ e.long_inactivity_timer then RRCState.IDLE
      else RRCState.INACTIVE := by
  simp only [update_state_machine, hs]
  split_ifs <;> simp_all

/-- `_update_state_machine` keeps the event log within the 1000-entry bound. -/
lemma update_state_machine_event_log_length (e : Engine) (h : e.event_log.length ≤ 1000) :
    (update_state_machine e).event_log.length ≤ 1000 := by
  simp only [update_state_machine]
  split_ifs <;> simp_all [log_event_length]

@[simp] lemma calculate_energy_state (e : Engine) : (calculate_energy e).state = e.state := rfl
@[simp] lemma calculate_energy_previous_state (e : Engine) :
    (calculate_energy e).previous_state = e.previous_state := rfl
@[simp] lemma calculate_energy_inactivity_timer (e : Engine) :
    (calculate_energy e).inactivity_timer = e.inactivity_timer := rfl
@[simp] lemma calculate_energy_long_inactivity_timer (e : Engine) :
    (calculate_energy e).long_inactivity_timer = e.long_inactivity_timer := rfl
@[simp] lemma calculate_energy_simulation_time (e : Engine) :
    (calculate_energy e).simulation_time = e.simulation_time := rfl
@[simp] lemma calculate_energy_traffic_profile (e : Engine) :
    (calculate_energy e).traffic_profile = e.traffic_profile := rfl
@[simp] lemma calculate_energy_inactivity_threshold (e : Engine) :
    (calculate_energy e).inactivity_threshold = e.inactivity_threshold := rfl
@[simp] lemma calculate_energy_long_inactivity_threshold (e : Engine) :
    (calculate_energy e).long_inactivity_threshold = e.long_inactivity_threshold := rfl
@[simp] lemma calculate_energy_data_request (e : Engine) :
    (calculate_energy e).data_request = e.data_request := rfl
@[simp] lemma calculate_energy_paging_request (e : Engine) :
    (calculate_energy e).paging_request = e.paging_request := rfl
@[simp] lemma calculate_energy_data_active (e : Engine) :
    (calculate_energy e).data_active = e.data_active := rfl
@[simp] lemma calculate_energy_data_burst_duration (e : Engine) :
    (calculate_energy e).data_burst_duration = e.data_burst_duration := rfl
@[simp] lemma calculate_energy_max_history_length (e : Engine) :
    (calculate_energy e).max_history_length = e.max_history_length := rfl
@[simp] lemma calculate_energy_state_history (e : Engine) :
    (calculate_energy e).state_history = e.state_history := rfl
@[simp] lemma calculate_energy_data_request_history (e : Engine) :
    (calculate_energy e).data_request_history = e.data_request_history := rfl
@[simp] lemma calculate_energy_time_history (e : Engine) :
    (calculate_energy e).time_history = e.time_history := rfl
@[simp] lemma calculate_energy_event_log (e : Engine) :
    (calculate_energy e).event_log = e.event_log := rfl
@[simp] lemma calculate_energy_state_durations (e : Engine) :
    (calculate_energy e).state_durations = e.state_durations := rfl
@[simp] lemma calculate_energy_transition_count (e : Engine) :
    (calculate_energy e).transition_count = e.transition_count := rfl

@[simp] lemma record_history_state (e : Engine) : (record_history e).state = e.state := by
  simp only [record_history]
  split_ifs <;> rfl

@[simp] lemma record_history_previous_state (e : Engine) :
    (record_history e).previous_state = e.previous_state := by
  simp only [record_history]
  split_ifs <;> rfl

@[simp] lemma record_history_inactivity_timer (e : Engine) :
    (record_history e).inactivity_timer = e.inactivity_timer := by
  simp only [record_history]
  split_ifs <;> rfl

@[simp] lemma record_history_long_inactivity_timer (e : Engine) :
    (record_history e).long_inactivity_timer = e.long_inactivity_timer := by
  simp only [record_history]
  split_ifs <;> rfl

@[simp] lemma record_history_simulation_time (e : Engine) :
    (record_history e).simulation_time = e.simulation_time := by
  simp only [record_history]
  split_ifs <;> rfl

@[simp] lemma record_history_traffic_profile (e : Engine) :
    (record_history e).traffic_profile = e.traffic_profile := by
  simp only [record_history]
  split_ifs <;> rfl

@[simp] lemma record_history_inactivity_threshold (e : Engine) :
    (record_history e).inactivity_threshold = e.inactivity_threshold := by
  simp only [record_history]
  split_ifs <;> rfl

@[simp] lemma record_history_long_inactivity_threshold (e : Engine) :
    (record_history e).long_inactivity_threshold = e.long_inactivity_threshold := by
  simp only [record_history]
  split_ifs <;> rfl

@[simp] lemma record_history_data_request (e : Engine) :
    (record_history e).data_request = e.data_request := by
  simp only [record_history]
  split_ifs <;> rfl

@[simp] lemma record_history_paging_request (e : Engine) :
    (record_history e).paging_request = e.paging_request := by
  simp only [record_history]
  split_ifs <;> rfl

@[simp] lemma record_history_data_active (e : Engine) :
    (record_history e).data_active = e.data_active := by
  simp only [record_history]
  split_ifs <;> rfl

@[simp] lemma record_history_data_burst_duration (e : Engine) :
    (record_history e).data_burst_duration = e.data_burst_duration := by
  simp only [record_history]
  split_ifs <;> rfl

@[simp] lemma record_history_total_energy (e : Engine) :
    (record_history e).total_energy = e.total_energy := by
  simp only [record_history]
  split_ifs <;> rfl

@[simp] lemma record_history_max_history_length (e : Engine) :
    (record_history e).max_history_length = e.max_history_length := by
  simp only [record_history]
  split_ifs <;> rfl

@[simp] lemma record_history_event_log (e : Engine) :
    (record_history e).event_log = e.event_log := by
  simp only [record_history]
  split_ifs <;> rfl

@[simp] lemma record_history_state_durations (e : Engine) :
    (record_history e).state_durations = e.state_durations := by
  simp only [record_history]
  split_ifs <;> rfl

@[simp] lemma record_history_transition_count (e : Engine) :
    (record_history e).transition_count = e.transition_count := by
  simp only [record_history]
  split_ifs <;> rfl

/-- The state history after `_record_history`: bulk eviction iff at capacity,
then one appended sample. -/
lemma record_history_state_history (e : Engine) :
    (record_history e).state_history =
      (if e.max_history_length ≤ e.state_history.length then
        e.state_history.drop (e.max_history_length / 10)
      else e.state_history) ++ [e.state.toNat] := by
  simp only [record_history]
  split_ifs <;> rfl

/-- The data-request history after `_record_history`. -/
lemma record_history_data_request_history (e : Engine) :
    (record_history e).data_request_history =
      (if e.max_history_length ≤ e.state_history.length then
        e.data_request_history.drop (e.max_history_length / 10)
      else e.data_request_history) ++ [if e.data_active || e.data_request then 1 else 0] := by
  simp only [record_history]
  split_ifs <;> rfl

/-- The time history after `_record_history`. -/
lemma record_history_time_history (e : Engine) :
    (record_history e).time_history =
      (if e.max_history_length ≤ e.state_history.length then
        e.time_history.drop (e.max_history_length / 10)
      else e.time_history) ++ [(e.simulation_time : ℚ) / 1000] := by
  simp only [record_history]
  split_ifs <;> rfl

/-! ## Per-tick composition lemmas -/

/-- The post-tick state is decided by `_update_state_machine` applied to the
post-`_update_timers` engine; no later step of `tick` changes it. -/
lemma tick_state (e : Engine) :
    (tick e).state = (update_state_machine (update_timers e)).state := by
  simp [tick]

lemma tick_inactivity_timer (e : Engine) :
    (tick e).inactivity_timer = (update_timers e).inactivity_timer := by
  simp [tick]

lemma tick_long_inactivity_timer (e : Engine) :
    (tick e).long_inactivity_timer = (update_timers e).long_inactivity_timer := by
  simp [tick]

lemma tick_simulation_time (e : Engine) :
    (tick e).simulation_time = e.simulation_time + 1 := by
  simp [tick]

lemma tick_data_request (e : Engine) : (tick e).data_request = false := by
  simp [tick]

lemma tick_paging_request (e : Engine) : (tick e).paging_request = false := by
  simp [tick]

lemma tick_data_burst_duration (e : Engine) :
    (tick e).data_burst_duration = e.data_burst_duration - 1 := by
  simp [tick, update_timers_data_burst_duration]

lemma tick_data_active (e : Engine) :
    (tick e).data_active = decide (0 < e.data_burst_duration) := by
  simp [tick, update_timers_data_active]

lemma tick_inactivity_threshold (e : Engine) :
    (tick e).inactivity_threshold = e.inactivity_threshold := by
  simp [tick]

lemma tick_long_inactivity_threshold (e : Engine) :
    (tick e).long_inactivity_threshold = e.long_inactivity_threshold := by
  simp [tick]

lemma tick_traffic_profile (e : Engine) :
    (tick e).traffic_profile = e.traffic_profile := by
  simp [tick]

lemma tick_max_history_length (e : Engine) :
    (tick e).max_history_length = e.max_history_length := by
  simp [tick]

lemma tick_event_log (e : Engine) :
    (tick e).event_log = (update_state_machine (update_timers e)).event_log := by
  simp [tick]

lemma tick_time_history (e : Engine) :
    (tick e).time_history =
      (if e.max_history_length ≤ e.state_history.length then
        e.time_history.drop (e.max_history_length / 10)
      else e.time_history) ++ [(e.simulation_time : ℚ) / 1000] := by
  simp [tick, record_history_time_history]

lemma tick_state_history (e : Engine) :
    (tick e).state_history =
      (if e.max_history_length ≤ e.state_history.length then
        e.state_history.drop (e.max_history_length / 10)
      else e.state_history) ++ [((update_state_machine (update_timers e)).state).toNat] := by
  simp [tick, record_history_state_history]

lemma tick_data_request_history (e : Engine) :
    (tick e).data_request_history =
      (if e.max_history_length ≤ e.state_history.length then
        e.data_request_history.drop (e.max_history_length / 10)
      else e.data_request_history) ++
      [if (update_timers e).data_active then 1 else 0] := by
  simp [tick, record_history_data_request_history]

/-! ## Trigger, profile and reset lemmas -/

@[simp] lemma trigger_data_request_state (d : Nat) (e : Engine) :
    (trigger_data_request d e).state = e.state := by
  simp [trigger_data_request]

@[simp] lemma trigger_data_request_data_request (d : Nat) (e : Engine) :
    (trigger_data_request d e).data_request = true := by
  simp [trigger_data_request]

@[simp] lemma trigger_data_request_data_burst_duration (d : Nat) (e : Engine) :
    (trigger_data_request d e).data_burst_duration = d := by
  simp [trigger_data_request]

@[simp] lemma trigger_data_request_data_active (d : Nat) (e : Engine) :
    (trigger_data_request d e).data_active = e.data_active := by
  simp [trigger_data_request]

@[simp] lemma trigger_data_request_inactivity_timer (d : Nat) (e : Engine) :
    (trigger_data_request d e).inactivity_timer = e.inactivity_timer := by
  simp [trigger_data_request]

@[simp] lemma trigger_data_request_long_inactivity_timer (d : Nat) (e : Engine) :
    (trigger_data_request d e).long_inactivity_timer = e.long_inactivity_timer := by
  simp [trigger_data_request]

@[simp] lemma trigger_data_request_inactivity_threshold (d : Nat) (e : Engine) :
    (trigger_data_request d e).inactivity_threshold = e.inactivity_threshold := by
  simp [trigger_data_request]

@[simp] lemma trigger_data_request_long_inactivity_threshold (d : Nat) (e : Engine) :
    (trigger_data_request d e).long_inactivity_threshold = e.long_inactivity_threshold := by
  simp [trigger_data_request]

@[simp] lemma trigger_data_request_paging_request (d : Nat) (e : Engine) :
    (trigger_data_request d e).paging_request = e.paging_request := by
  simp [trigger_data_request]

@[simp] lemma trigger_data_request_simulation_time (d : Nat) (e : Engine) :
    (trigger_data_request d e).simulation_time = e.simulation_time := by
  simp [trigger_data_request]

@[simp] lemma trigger_data_request_state_history (d : Nat) (e : Engine) :
    (trigger_data_request d e).state_history = e.state_history := by
  simp [trigger_data_request]

@[simp] lemma trigger_data_request_data_request_history (d : Nat) (e : Engine) :
    (trigger_data_request d e).data_request_history = e.data_request_history := by
  simp [trigger_data_request]

@[simp] lemma trigger_data_request_time_history (d : Nat) (e : Engine) :
    (trigger_data_request d e).time_history = e.time_history := by
  simp [trigger_data_request]

@[simp] lemma trigger_data_request_max_history_length (d : Nat) (e : Engine) :
    (trigger_data_request d e).max_history_length = e.max_history_length := by
  simp [trigger_data_request]

@[simp] lemma trigger_paging_paging_request (e : Engine) :
    (trigger_paging e).paging_request = true := by
  simp [trigger_paging]

@[simp] lemma trigger_paging_state (e : Engine) : (trigger_paging e).state = e.state := by
  simp [trigger_paging]

@[simp] lemma trigger_paging_data_request (e : Engine) :
    (trigger_paging e).data_request = e.data_request := by
  simp [trigger_paging]

@[simp] lemma trigger_paging_state_history (e : Engine) :
    (trigger_paging e).state_history = e.state_history := by
  simp [trigger_paging]

@[simp] lemma trigger_paging_data_request_history (e : Engine) :
    (trigger_paging e).data_request_history = e.data_request_history := by
  simp [trigger_paging]

@[simp] lemma trigger_paging_time_history (e : Engine) :
    (trigger_paging e).time_history = e.time_history := by
  simp [trigger_paging]

@[simp] lemma trigger_paging_simulation_time (e : Engine) :
    (trigger_paging e).simulation_time = e.simulation_time := by
  simp [trigger_paging]

@[simp] lemma trigger_paging_max_history_length (e : Engine) :
    (trigger_paging e).max_history_length = e.max_history_length := by
  simp [trigger_paging]

/-! ## Reachability machinery and the buffer/monotonicity invariant -/

lemma tickN_succ (n : Nat) (e : Engine) : tickN (n + 1) e = tickN n (tick e) := rfl

lemma tickN_add (m n : Nat) (e : Engine) : tickN (m + n) e = tickN n (tickN m e) := by
  induction m generalizing e with
  | zero => simp [tickN]
  | succ m ih =>
      have : m + 1 + n = (m + n) + 1 := by omega
      rw [show m + 1 + n = m + n + 1 from by omega]
      rw [tickN_succ, tickN_succ, ih]

lemma foldl_applyOp_replicate_tick (n : Nat) (e : Engine) :
    (List.replicate n Op.tick).foldl applyOp e = tickN n e := by
  induction n generalizing e with
  | zero => simp [tickN]
  | succ n ih => simp [List.replicate_succ, List.foldl_cons, ih, tickN_succ, applyOp]

lemma run_cons (op : Op) (ops : List Op) :
    run (op :: ops) = ops.foldl applyOp (applyOp initEngine op) := rfl

/-- The reachable-state invariant: fixed capacity, three equal-length histories
within capacity, bounded event log, and a sorted time column strictly below the
current simulation time (in seconds). -/
def EngineInv (e : Engine) : Prop :=
  e.max_history_length = 100000 ∧
  e.state_history.length = e.time_history.length ∧
  e.data_request_history.length = e.time_history.length ∧
  e.time_history.length ≤ 100000 ∧
  e.event_log.length ≤ 1000 ∧
  e.time_history.Pairwise (· ≤ ·) ∧
  ∀ t ∈ e.time_history, t < (e.simulation_time : ℚ) / 1000

lemma engineInv_init : EngineInv initEngine := by
  refine ⟨rfl, rfl, rfl, by simp [initEngine], by simp [initEngine], by simp [initEngine], ?_⟩
  simp [initEngine]

lemma time_step_lt (n : Nat) : (n : ℚ) / 1000 < ((n + 1 : Nat) : ℚ) / 1000 := by
  push_cast
  linarith

lemma engineInv_tick (e : Engine) (h : EngineInv e) : EngineInv (tick e) := by
  obtain ⟨hmax, hsl, hdl, hlen, hev, hsort, hbound⟩ := h
  have hcap10 : e.max_history_length / 10 = 10000 := by rw [hmax]
  refine ⟨by rw [tick_max_history_length, hmax], ?_, ?_, ?_, ?_, ?_, ?_⟩
  · rw [tick_state_history, tick_time_history]
    split_ifs
    all_goals simp only [List.length_append, List.length_cons, List.length_nil, List.length_drop]
    all_goals omega
  · rw [tick_data_request_history, tick_time_history]
    split_ifs
    all_goals simp only [List.length_append, List.length_cons, List.length_nil, List.length_drop]
    all_goals omega
  · rw [tick_time_history]
    split_ifs
    all_goals simp only [List.length_append, List.length_cons, List.length_nil, List.length_drop]
    all_goals omega
  · rw [tick_event_log]
    apply update_state_machine_event_log_length
    rw [update_timers_event_log]
    exact hev
  · rw [tick_time_history]
    rw [List.pairwise_append]
    refine ⟨?_, by simp, ?_⟩
    · split_ifs
      · exact hsort.sublist (List.drop_sublist _ _)
      · exact hsort
    · intro a ha b hb
      simp only [List.mem_singleton] at hb
      subst hb
      have haa : a ∈ e.time_history := by
        split_ifs at ha with hc
        · exact (List.drop_sublist _ _).mem ha
        · exact ha
      exact le_of_lt (hbound a haa)
  · rw [tick_time_history, tick_simulation_time]
    intro t ht
    rw [List.mem_append] at ht
    rcases ht with ht | ht
    · have htt : t ∈ e.time_history := by
        split_ifs at ht with hc
        · exact (List.drop_sublist _ _).mem ht
        · exact ht
      exact lt_trans (hbound t htt) (time_step_lt e.simulation_time)
    · simp only [List.mem_singleton] at ht
      subst ht
      exact time_step_lt e.simulation_time

lemma trigger_data_request_event_log_length (d : Nat) (e : Engine) :
    (trigger_data_request d e).event_log.length = min (e.event_log.length + 1) 1000 := by
  simp [trigger_data_request, log_event_length]

lemma trigger_paging_event_log_length (e : Engine) :
    (trigger_paging e).event_log.length = min (e.event_log.length + 1) 1000 := by
  simp [trigger_paging, log_event_length]

lemma engineInv_trigger_data_request (d : Nat) (e : Engine) (h : EngineInv e) :
    EngineInv (trigger_data_request d e) := by
  obtain ⟨hmax, hsl, hdl, hlen, hev, hsort, hbound⟩ := h
  refine ⟨by simpa using hmax, by simpa using hsl, by simpa using hdl, by simpa using hlen,
    ?_, by simpa using hsort, by simpa using hbound⟩
  rw [trigger_data_request_event_log_length]
  omega

lemma engineInv_trigger_paging (e : Engine) (h : EngineInv e) :
    EngineInv (trigger_paging e) := by
  obtain ⟨hmax, hsl, hdl, hlen, hev, hsort, hbound⟩ := h
  refine ⟨by simpa using hmax, by simpa using hsl, by simpa using hdl, by simpa using hlen,
    ?_, by simpa using hsort, by simpa using hbound⟩
  rw [trigger_paging_event_log_length]
  omega

lemma engineInv_profile (s : String) (e : Engine) (h : EngineInv e) :
    EngineInv (applyOp e (Op.profile s)) := by
  obtain ⟨hmax, hsl, hdl, hlen, hev, hsort, hbound⟩ := h
  simp only [applyOp, set_traffic_profile]
  split_ifs
  · refine ⟨by simpa using hmax, by simpa using hsl, by simpa using hdl, by simpa using hlen,
      ?_, by simpa using hsort, by simpa using hbound⟩
    rw [log_event_length]
    omega
  · refine ⟨by simpa using hmax, by simpa using hsl, by simpa using hdl, by simpa using hlen,
      ?_, by simpa using hsort, by simpa using hbound⟩
    rw [log_event_length]
    omega
  · exact ⟨hmax, hsl, hdl, hlen, hev, hsort, hbound⟩

lemma engineInv_reset (e : Engine) : EngineInv (reset e) := by
  refine ⟨by simp [reset, initEngine], by simp [reset, initEngine], by simp [reset, initEngine],
    by simp [reset, initEngine], ?_, by simp [reset, initEngine], by simp [reset, initEngine]⟩
  rw [reset, log_event_length]
  simp [initEngine]

lemma engineInv_applyOp (e : Engine) (op : Op) (h : EngineInv e) : EngineInv (applyOp e op) := by
  cases op with
  | tick => exact engineInv_tick e h
  | data d => exact engineInv_trigger_data_request d e h
  | paging => exact engineInv_trigger_paging e h
  | profile s => exact engineInv_profile s e h
  | reset => exact engineInv_reset e

lemma engineInv_foldl (ops : List Op) (e : Engine) (h : EngineInv e) :
    EngineInv (ops.foldl applyOp e) := by
  induction ops generalizing e with
  | nil => exact h
  | cons op ops ih => exact ih _ (engineInv_applyOp e op h)

/-- Every engine reachable from construction satisfies the invariant. -/
lemma engineInv_run (ops : List Op) : EngineInv (run ops) :=
  engineInv_foldl ops initEngine engineInv_init

lemma connected_tick_stay (e : Engine) (hs : e.state = RRCState.CONNECTED)
    (hda : e.data_active = false) (hb : e.data_burst_duration = 0)
    (hlt : e.inactivity_timer + 1 < e.inactivity_threshold) :
    (tick e).state = RRCState.CONNECTED ∧
    (tick e).inactivity_timer = e.inactivity_timer + 1 ∧
    (tick e).data_active = false ∧
    (tick e).data_burst_duration = 0 ∧
    (tick e).inactivity_threshold = e.inactivity_threshold := by
  have hut : (update_timers e).state = RRCState.CONNECTED := by rw [update_timers_state, hs]
  have hti : (update_timers e).inactivity_timer = e.inactivity_timer + 1 := by
    rw [update_timers_inactivity_timer, hs, hda]
    simp
  have hta : (update_timers e).data_active = false := by
    rw [update_timers_data_active, hb]
    simp
  refine ⟨?_, ?_, ?_, ?_, ?_⟩
  · rw [tick_state, update_state_machine_state_of_connected _ hut]
    rw [if_neg]
    rw [hti, update_timers_inactivity_threshold]
    rintro ⟨h1, -⟩
    omega
  · rw [tick_inactivity_timer, hti]
  · rw [tick_data_active, hb]
    simp
  · rw [tick_data_burst_duration, hb]
  · rw [tick_inactivity_threshold]

lemma connected_tick_to_inactive (e : Engine) (hs : e.state = RRCState.CONNECTED)
    (hda : e.data_active = false) (hb : e.data_burst_duration = 0)
    (hge : e.inactivity_threshold ≤ e.inactivity_timer + 1) :
    (tick e).state = RRCState.INACTIVE ∧
    (tick e).inactivity_timer = e.inactivity_timer + 1 := by
  have hut : (update_timers e).state = RRCState.CONNECTED := by rw [update_timers_state, hs]
  have hti : (update_timers e).inactivity_timer = e.inactivity_timer + 1 := by
    rw [update_timers_inactivity_timer, hs, hda]
    simp
  have hta : (update_timers e).data_active = false := by
    rw [update_timers_data_active, hb]
    simp
  refine ⟨?_, ?_⟩
  · rw [tick_state, update_state_machine_state_of_connected _ hut]
    rw [if_pos]
    refine ⟨?_, hta⟩
    rw [hti, update_timers_inactivity_threshold]
    omega
  · rw [tick_inactivity_timer, hti]

lemma connected_dwell (e : Engine) (hs : e.state = RRCState.CONNECTED)
    (hda : e.data_active = false) (hb : e.data_burst_duration = 0) :
    ∀ n, e.inactivity_timer + n < e.inactivity_threshold →
      (tickN n e).state = RRCState.CONNECTED ∧
      (tickN n e).inactivity_timer = e.inactivity_timer + n ∧
      (tickN n e).data_active = false ∧
      (tickN n e).data_burst_duration = 0 ∧
      (tickN n e).inactivity_threshold = e.inactivity_threshold := by
  intro n
  induction n generalizing e with
  | zero => exact fun _ => ⟨hs, by simp [tickN], hda, by simp [tickN, hb], by simp [tickN]⟩
  | succ n ih =>
      intro hlt
      obtain ⟨h1, h2, h3, h4, h5⟩ := connected_tick_stay e hs hda hb (by omega)
      rw [tickN_succ]
      obtain ⟨g1, g2, g3, g4, g5⟩ := ih (tick e) h1 h3 h4 (by rw [h2, h5]; omega)
      exact ⟨g1, by rw [g2, h2]; omega, g3, g4, by rw [g5, h5]⟩

lemma inactive_tick_stay (e : Engine) (hs : e.state = RRCState.INACTIVE)
    (hdr : e.data_request = false)
    (hlt : e.long_inactivity_timer + 1 < e.long_inactivity_threshold) :
    (tick e).state = RRCState.INACTIVE ∧
    (tick e).long_inactivity_timer = e.long_inactivity_timer + 1 ∧
    (tick e).data_request = false ∧
    (tick e).long_inactivity_threshold = e.long_inactivity_threshold := by
  have hut : (update_timers e).state = RRCState.INACTIVE := by rw [update_timers_state, hs]
  have htl : (update_timers e).long_inactivity_timer = e.long_inactivity_timer + 1 := by
    rw [update_timers_long_inactivity_timer, hs]
    simp
  refine ⟨?_, ?_, tick_data_request e, tick_long_inactivity_threshold e⟩
  · rw [tick_state, update_state_machine_state_of_inactive _ hut]
    rw [update_timers_data_request, hdr]
    simp only [Bool.false_eq_true, if_false]
    rw [if_neg]
    rw [htl, update_timers_long_inactivity_threshold]
    omega
  · rw [tick_long_inactivity_timer, htl]

lemma inactive_tick_to_idle (e : Engine) (hs : e.state = RRCState.INACTIVE)
    (hdr : e.data_request = false)
    (hge : e.long_inactivity_threshold ≤ e.long_inactivity_timer + 1) :
    (tick e).state = RRCState.IDLE ∧
    (tick e).long_inactivity_timer = e.long_inactivity_timer + 1 := by
  have hut : (update_timers e).state = RRCState.INACTIVE := by rw [update_timers_state, hs]
  have htl : (update_timers e).long_inactivity_timer = e.long_inactivity_timer + 1 := by
    rw [update_timers_long_inactivity_timer, hs]
    simp
  refine ⟨?_, ?_⟩
  · rw [tick_state, update_state_machine_state_of_inactive _ hut]
    rw [update_timers_data_request, hdr]
    simp only [Bool.false_eq_true, if_false]
    rw [if_pos]
    rw [htl, update_timers_long_inactivity_threshold]
    omega
  · rw [tick_long_inactivity_timer, htl]

lemma inactive_tick_resume (e : Engine) (hs : e.state = RRCState.INACTIVE)
    (hdr : e.data_request = true) :
    (tick e).state = RRCState.CONNECTED ∧
    (tick e).long_inactivity_timer = e.long_inactivity_timer + 1 := by
  have hut : (update_timers e).state = RRCState.INACTIVE := by rw [update_timers_state, hs]
  have htl : (update_timers e).long_inactivity_timer = e.long_inactivity_timer + 1 := by
    rw [update_timers_long_inactivity_timer, hs]
    simp
  refine ⟨?_, ?_⟩
  · rw [tick_state, update_state_machine_state_of_inactive _ hut]
    rw [update_timers_data_request, hdr]
    simp
  · rw [tick_long_inactivity_timer, htl]

lemma inactive_dwell (e : Engine) (hs : e.state = RRCState.INACTIVE)
    (hdr : e.data_request = false) :
    ∀ n, e.long_inactivity_timer + n < e.long_inactivity_threshold →
      (tickN n e).state = RRCState.INACTIVE ∧
      (tickN n e).long_inactivity_timer = e.long_inactivity_timer + n ∧
      (tickN n e).data_request = false ∧
      (tickN n e).long_inactivity_threshold = e.long_inactivity_threshold := by
  intro n
  induction n generalizing e with
  | zero => exact fun _ => ⟨hs, by simp [tickN], hdr, by simp [tickN]⟩
  | succ n ih =>
      intro hlt
      obtain ⟨h1, h2, h3, h4⟩ := inactive_tick_stay e hs hdr (by omega)
      rw [tickN_succ]
      obtain ⟨g1, g2, g3, g4⟩ := ih (tick e) h1 h3 (by rw [h2, h4]; omega)
      exact ⟨g1, by rw [g2, h2]; omega, g3, by rw [g4, h4]⟩

/-! ## Iterated-tick helpers and scan lemmas -/

lemma tickN_one (e : Engine) : tickN 1 e = tick e := rfl

lemma tickN_succ_outer (n : Nat) (e : Engine) : tickN (n + 1) e = tick (tickN n e) := by
  rw [tickN_add n 1 e, tickN_one]

/-- Ticking keeps a zero burst countdown at zero, with data inactive. -/

lemma burst_zero_ticks (e : Engine) (hb : e.data_burst_duration = 0) :
    ∀ n, (tickN n e).data_burst_duration = 0 ∧ (tickN (n + 1) e).data_active = false := by
  intro n
  induction n generalizing e with
  | zero =>
      refine ⟨hb, ?_⟩
      rw [tickN_one, tick_data_active, hb]
      simp
  | succ n ih =>
      have hb' : (tick e).data_burst_duration = 0 := by
        rw [tick_data_burst_duration, hb]
      obtain ⟨g1, g2⟩ := ih (tick e) hb'
      exact ⟨by rw [tickN_succ]; exact g1, by rw [tickN_succ (n+1)]; exact g2⟩

lemma first_ge_eq_none (c : ℚ) (ts : List ℚ) :
    first_ge c ts = none ↔ ∀ t ∈ ts, t < c := by
  induction ts with
  | nil => simp [first_ge]
  | cons t ts ih =>
      rw [first_ge]
      split_ifs with hc
      · simp only [reduceCtorEq, false_iff, not_forall]
        exact ⟨t, by simp, by simpa using hc⟩
      · rw [Option.map_eq_none', ih]
        constructor
        · intro h x hx
          rcases List.mem_cons.mp hx with rfl | hx
          · exact lt_of_not_le hc
          · exact h x hx
        · intro h x hx
          exact h x (List.mem_cons_of_mem t hx)

lemma first_ge_spec (c : ℚ) (ts : List ℚ) (i : Nat) (h : first_ge c ts = some i) :
    ∃ hi : i < ts.length, (∀ t ∈ ts.take i, t < c) ∧ c ≤ ts.get ⟨i, hi⟩ := by
  induction ts generalizing i with
  | nil => simp [first_ge] at h
  | cons t ts ih =>
      rw [first_ge] at h
      split_ifs at h with hc
      · cases h
        exact ⟨by simp, by simp, by simpa using hc⟩
      · rcases Option.map_eq_some'.mp h with ⟨j, hj, rfl⟩
        obtain ⟨hij, htake, hget⟩ := ih j hj
        refine ⟨by simpa using Nat.succ_lt_succ hij, ?_, ?_⟩
        · intro x hx
          rw [List.take_succ_cons] at hx
          rcases List.mem_cons.mp hx with rfl | hx
          · exact lt_of_not_le hc
          · exact htake x hx
        · simpa using hget

lemma sorted_drop_all_ge (c : ℚ) (ts : List ℚ) (hsort : ts.Pairwise (· ≤ ·)) (i : Nat)
    (hi : i < ts.length) (hc : c ≤ ts.get ⟨i, hi⟩) : ∀ t ∈ ts.drop i, c ≤ t := by
  intro t ht
  have hdrop : ts.drop i = ts.get ⟨i, hi⟩ :: ts.drop (i + 1) := by
    rw [List.drop_eq_getElem_cons hi]
    rfl
  have hpair : (ts.drop i).Pairwise (· ≤ ·) := hsort.sublist (List.drop_sublist i ts)
  rw [hdrop] at ht hpair
  rcases List.mem_cons.mp ht with rfl | ht
  · exact hc
  · exact le_trans hc ((List.pairwise_cons.mp hpair).1 t ht)

/-! ## Claim theorems -/

/-- C9: a freshly constructed engine starts in IDLE with the IoT profile,
thresholds 200 and 5000, both timers, simulation time, total energy and
transition count zero, and empty history and event log. -/
theorem C9_initial_state :
    initEngine.state = RRCState.IDLE ∧
    initEngine.traffic_profile = TrafficProfile.IOT ∧
    initEngine.inactivity_threshold = 200 ∧
    initEngine.long_inactivity_threshold = 5000 ∧
    initEngine.inactivity_timer = 0 ∧
    initEngine.long_inactivity_timer = 0 ∧
    initEngine.simulation_time = 0 ∧
    initEngine.total_energy = 0 ∧
    initEngine.transition_count = 0 ∧
    initEngine.state_history = [] ∧
    initEngine.data_request_history = [] ∧
    initEngine.time_history = [] ∧
    initEngine.event_log = [] := by
  refine ⟨?_, ?_, ?_, ?_, ?_, ?_, ?_, ?_, ?_, ?_, ?_, ?_, ?_⟩ <;> rfl

/-- C6: from INACTIVE with the data-request latch set, the next tick always
moves the engine to CONNECTED (fast resume), whatever the value of
`long_inactivity_timer` — in particular also when the long-inactivity timer has
already reached its threshold in the same tick. -/
theorem C6_fast_resume (e : Engine) (hs : e.state = RRCState.INACTIVE)
    (hdr : e.data_request = true) :
    (tick e).state = RRCState.CONNECTED :=
  (inactive_tick_resume e hs hdr).1

/-- C6 witness: fast resume fires at a concrete engine whose long-inactivity
timer is far beyond every threshold. -/
theorem C6_fast_resume_witness :
    (tick { initEngine with
              state := RRCState.INACTIVE
              data_request := true
              long_inactivity_timer := 123456 }).state = RRCState.CONNECTED :=
  C6_fast_resume _ rfl rfl

/-- C5: from INACTIVE with no pending data request, the engine stays INACTIVE
on every tick before the long-inactivity timer reaches its threshold (the timer
incrementing by one per tick), and the transition to IDLE fires exactly on the
tick in which the incremented timer first satisfies `timer ≥ threshold`. -/
theorem C5_inactive_to_idle_exact (e : Engine) (hs : e.state = RRCState.INACTIVE)
    (hdr : e.data_request = false) :
    (∀ n < max 1 (e.long_inactivity_threshold - e.long_inactivity_timer),
        (tickN n e).state = RRCState.INACTIVE ∧
        (tickN n e).long_inactivity_timer = e.long_inactivity_timer + n) ∧
    (tickN (max 1 (e.long_inactivity_threshold - e.long_inactivity_timer)) e).state
        = RRCState.IDLE ∧
    (tickN (max 1 (e.long_inactivity_threshold - e.long_inactivity_timer)) e).long_inactivity_timer
        = e.long_inactivity_timer +
          max 1 (e.long_inactivity_threshold - e.long_inactivity_timer) := by
  set T := e.long_inactivity_threshold with hT
  set L := e.long_inactivity_timer with hL
  have hmain : ∀ n, L + n < T →
      (tickN n e).state = RRCState.INACTIVE ∧
      (tickN n e).long_inactivity_timer = L + n ∧
      (tickN n e).data_request = false ∧
      (tickN n e).long_inactivity_threshold = T := by
    intro n hn
    exact inactive_dwell e hs hdr n hn
  constructor
  · intro n hn
    rcases Nat.lt_or_ge L T with hLT | hTL
    · have hn' : L + n < T := by omega
      exact ⟨(hmain n hn').1, (hmain n hn').2.1⟩
    · have : max 1 (T - L) = 1 := by omega
      rw [this] at hn
      interval_cases n
      exact ⟨hs, by simp [tickN]⟩
  · rcases Nat.lt_or_ge L T with hLT | hTL
    · have hmax : max 1 (T - L) = T - L := by omega
      rw [hmax]
      have hTL1 : T - L = (T - L - 1) + 1 := by omega
      rw [hTL1, tickN_succ_outer]
      obtain ⟨g1, g2, g3, g4⟩ := hmain (T - L - 1) (by omega)
      obtain ⟨f1, f2⟩ := inactive_tick_to_idle _ g1 g3 (by rw [g2, g4]; omega)
      refine ⟨f1, ?_⟩
      rw [f2, g2]
      omega
    · have hmax : max 1 (T - L) = 1 := by omega
      rw [hmax, tickN_one]
      obtain ⟨f1, f2⟩ := inactive_tick_to_idle e hs hdr (by omega)
      exact ⟨f1, by rw [f2]⟩

/-- C5 witness: an INACTIVE engine two ticks short of its threshold reaches
IDLE after exactly two more ticks. -/
theorem C5_inactive_to_idle_exact_witness :
    (tickN 2 { initEngine with
                 state := RRCState.INACTIVE
                 long_inactivity_timer := 4998 }).state = RRCState.IDLE := by
  have h := C5_inactive_to_idle_exact
      { initEngine with state := RRCState.INACTIVE, long_inactivity_timer := 4998 } rfl rfl
  have h2 := h.2.1
  simpa [initEngine, LONG_INACTIVITY_THRESHOLDS] using h2

/-- C10: `trigger_data_request(d)` latches the request and overwrites the burst
countdown with exactly `d` (a later call overwrites again, so a smaller `d`
shortens the remaining burst); with `d = 0` the latch is still set — so one tick
from IDLE or INACTIVE still reaches CONNECTED — while `data_active` is never
made true by it: it is untouched at trigger time and false after every
subsequent tick. -/
theorem C10_trigger_overwrite (e : Engine) (d : Nat) :
    (trigger_data_request d e).data_request = true ∧
    (trigger_data_request d e).data_burst_duration = d ∧
    (∀ d2, (trigger_data_request d2 (trigger_data_request d e)).data_burst_duration = d2) ∧
    (trigger_data_request 0 e).data_active = e.data_active ∧
    (∀ n, (tickN (n + 1) (trigger_data_request 0 e)).data_active = false) ∧
    (e.state = RRCState.IDLE ∨ e.state = RRCState.INACTIVE →
      (tick (trigger_data_request 0 e)).state = RRCState.CONNECTED) := by
  refine ⟨by simp, by simp, fun d2 => by simp, by simp, ?_, ?_⟩
  · intro n
    exact (burst_zero_ticks (trigger_data_request 0 e) (by simp) n).2
  · intro hs
    set X := trigger_data_request 0 e with hX
    have hXdr : X.data_request = true := by simp [hX]
    rcases hs with hs | hs
    · have hut : (update_timers X).state = RRCState.IDLE := by
        rw [update_timers_state, hX, trigger_data_request_state, hs]
      rw [tick_state, update_state_machine_state_of_idle _ hut]
      rw [update_timers_data_request, hXdr]
      simp
    · exact (inactive_tick_resume X (by rw [hX, trigger_data_request_state]; exact hs) hXdr).1

/-- C10 witness: a 100 ms trigger sets the countdown to 100, and a zero-length
trigger from fresh IDLE still connects on the next tick. -/
theorem C10_trigger_overwrite_witness :
    (trigger_data_request 100 initEngine).data_burst_duration = 100 ∧
    (tick (trigger_data_request 0 initEngine)).state = RRCState.CONNECTED :=
  ⟨(C10_trigger_overwrite initEngine 100).2.1,
   (C10_trigger_overwrite initEngine 0).2.2.2.2.2 (Or.inl rfl)⟩

/-- C7: `set_traffic_profile` with any name that is not a case-insensitive
match of "streaming" or "iot" fails synchronously with the `ValueError`
message and leaves the engine unchanged; the two recognized names succeed and
swap both thresholds (and the profile) immediately, logging one event. -/
theorem C7_set_traffic_profile (e : Engine) (s : String) :
    (str_lower s ≠ "streaming" → str_lower s ≠ "iot" →
      set_traffic_profile s e = Except.error ("Unknown traffic profile: " ++ s) ∧
      applyOp e (Op.profile s) = e) ∧
    (str_lower s = "streaming" →
      set_traffic_profile s e = Except.ok (log_event
        "Traffic profile: STREAMING (CONN→INACT: 10s, INACT→IDLE: 20s)"
        { e with traffic_profile := TrafficProfile.STREAMING,
                 inactivity_threshold := 10000,
                 long_inactivity_threshold := 20000 })) ∧
    (str_lower s = "iot" →
      set_traffic_profile s e = Except.ok (log_event
        "Traffic profile: IoT (CONN→INACT: 200ms, INACT→IDLE: 5s)"
        { e with traffic_profile := TrafficProfile.IOT,
                 inactivity_threshold := 200,
                 long_inactivity_threshold := 5000 })) := by
  refine ⟨fun h1 h2 => ⟨?_, ?_⟩, fun h1 => ?_, fun h1 => ?_⟩
  · rw [set_traffic_profile, if_neg h1, if_neg h2]
  · rw [applyOp, set_traffic_profile, if_neg h1, if_neg h2]
  · rw [set_traffic_profile, if_pos h1]
    rfl
  · have h2 : str_lower s ≠ "streaming" := by
      intro hcon
      rw [hcon] at h1
      exact absurd h1 (by decide)
    rw [set_traffic_profile, if_neg h2, if_pos h1]
    rfl

/-- C7 witness: the unknown name "4G" fails and leaves the fresh engine
untouched; "Streaming" succeeds and installs the streaming thresholds. -/
theorem C7_set_traffic_profile_witness :
    (set_traffic_profile "4G" initEngine =
        Except.error ("Unknown traffic profile: " ++ "4G") ∧
      applyOp initEngine (Op.profile "4G") = initEngine) ∧
    set_traffic_profile "Streaming" initEngine = Except.ok (log_event
      "Traffic profile: STREAMING (CONN→INACT: 10s, INACT→IDLE: 20s)"
      { initEngine with traffic_profile := TrafficProfile.STREAMING,
                        inactivity_threshold := 10000,
                        long_inactivity_threshold := 20000 }) :=
  ⟨(C7_set_traffic_profile initEngine "4G").1 (by decide) (by decide),
   (C7_set_traffic_profile initEngine "Streaming").2.1 (by decide)⟩

/-- C2 counterexample: the claim "after every tick, state ≠ CONNECTED implies
inactivity_timer = 0" fails on a reachable engine: a zero-length data request
followed by 201 ticks leaves the engine in INACTIVE (the CONNECTED → INACTIVE
transition has just fired) with inactivity_timer = 200, not 0. -/
theorem C2_timer_reset_counterexample :
    (run (Op.data 0 :: List.replicate 201 Op.tick)).state = RRCState.INACTIVE ∧
    (run (Op.data 0 :: List.replicate 201 Op.tick)).inactivity_timer = 200 := by
  rw [run_cons, foldl_applyOp_replicate_tick]
  have h201 : (201 : Nat) = 1 + 200 := by omega
  rw [h201, tickN_add]
  have hA : (tickN 1 (applyOp initEngine (Op.data 0))).state = RRCState.CONNECTED ∧
      (tickN 1 (applyOp initEngine (Op.data 0))).inactivity_timer = 0 ∧
      (tickN 1 (applyOp initEngine (Op.data 0))).data_active = false ∧
      (tickN 1 (applyOp initEngine (Op.data 0))).data_burst_duration = 0 ∧
      (tickN 1 (applyOp initEngine (Op.data 0))).inactivity_threshold = 200 := by
    refine ⟨?_, ?_, ?_, ?_, ?_⟩ <;> decide
  set A := tickN 1 (applyOp initEngine (Op.data 0)) with hAdef
  obtain ⟨a1, a2, a3, a4, a5⟩ := hA
  have h200 : (200 : Nat) = 199 + 1 := by omega
  rw [h200, tickN_succ_outer]
  obtain ⟨g1, g2, g3, g4, g5⟩ := connected_dwell A a1 a3 a4 199 (by omega)
  obtain ⟨f1, f2⟩ := connected_tick_to_inactive _ g1 g3 g4 (by rw [g2, g5]; omega)
  exact ⟨f1, by rw [f2, g2, a2]⟩

/-- C2 (amended): the timer resets are keyed to the state at the START of a
tick — after every tick, if the pre-tick state was not CONNECTED then
inactivity_timer is 0, and if the pre-tick state was not INACTIVE then
long_inactivity_timer is 0; on the tick in which a transition leaves CONNECTED
(resp. INACTIVE) the outgoing timer keeps its final value until the next tick. -/
theorem C2_timer_reset_amended (e : Engine) :
    (e.state ≠ RRCState.CONNECTED → (tick e).inactivity_timer = 0) ∧
    (e.state ≠ RRCState.INACTIVE → (tick e).long_inactivity_timer = 0) := by
  constructor
  · intro h
    rw [tick_inactivity_timer, update_timers_inactivity_timer, if_neg h]
  · intro h
    rw [tick_long_inactivity_timer, update_timers_long_inactivity_timer, if_neg h]

/-- C2 witness: a fresh engine is in IDLE, so one tick later both timers are 0. -/
theorem C2_timer_reset_amended_witness :
    (tick initEngine).inactivity_timer = 0 ∧ (tick initEngine).long_inactivity_timer = 0 :=
  ⟨(C2_timer_reset_amended initEngine).1 (by decide),
   (C2_timer_reset_amended initEngine).2 (by decide)⟩

/-- C3 counterexample: in CONNECTED with inactivity_timer = 5 > 0, the first
tick after `trigger_data_request(100)` yields inactivity_timer = 6 — the timer
was incremented, not reset to 0 as the claim asserts. -/
theorem C3_tick_order_counterexample :
    (run (Op.data 0 :: List.replicate 6 Op.tick)).state = RRCState.CONNECTED ∧
    (run (Op.data 0 :: List.replicate 6 Op.tick)).inactivity_timer = 5 ∧
    (run ((Op.data 0 :: List.replicate 6 Op.tick) ++ [Op.data 100, Op.tick])).inactivity_timer
      = 6 := by
  refine ⟨?_, ?_, ?_⟩ <;> decide

/-- C3 (amended): within `_update_timers` the inactivity-timer update runs
BEFORE the burst countdown, so each tick's increment-or-reset decision uses the
data-active value left by the PREVIOUS tick; hence in CONNECTED with data
inactive, the first tick after `trigger_data_request(d)` with d > 0 increments
inactivity_timer by one, and the second tick is the one that resets it to 0. -/
theorem C3_tick_order_amended (e : Engine) (d : Nat) (hs : e.state = RRCState.CONNECTED)
    (hda : e.data_active = false) (hd : 0 < d) :
    (∀ e' : Engine, e'.state = RRCState.CONNECTED →
      (tick e').inactivity_timer = if e'.data_active then 0 else e'.inactivity_timer + 1) ∧
    (tick (trigger_data_request d e)).inactivity_timer = e.inactivity_timer + 1 ∧
    (tick (tick (trigger_data_request d e))).inactivity_timer = 0 := by
  have horder : ∀ e' : Engine, e'.state = RRCState.CONNECTED →
      (tick e').inactivity_timer = if e'.data_active then 0 else e'.inactivity_timer + 1 := by
    intro e' hs'
    rw [tick_inactivity_timer, update_timers_inactivity_timer, if_pos hs']
  refine ⟨horder, ?_, ?_⟩
  · rw [horder _ (by rw [trigger_data_request_state]; exact hs)]
    rw [trigger_data_request_data_active, hda]
    simp
  · set X := trigger_data_request d e with hX
    have hXs : X.state = RRCState.CONNECTED := by rw [hX, trigger_data_request_state]; exact hs
    have hXa : (tick X).data_active = true := by
      rw [tick_data_active, trigger_data_request_data_burst_duration]
      simp only [decide_eq_true_eq]
      omega
    have hXstate : (tick X).state = RRCState.CONNECTED := by
      have hut : (update_timers X).state = RRCState.CONNECTED := by
        rw [update_timers_state, hXs]
      rw [tick_state, update_state_machine_state_of_connected _ hut]
      rw [if_neg]
      rintro ⟨-, h2⟩
      rw [update_timers_data_active, trigger_data_request_data_burst_duration] at h2
      simp only [decide_eq_false_iff_not] at h2
      omega
    rw [horder _ hXstate, if_pos hXa]

/-- C3 witness: at the reachable CONNECTED engine after one data request and
one tick, a 100 ms trigger is followed by an increment and only then a reset. -/
theorem C3_tick_order_amended_witness :
    (tick (trigger_data_request 100 (run [Op.data 0, Op.tick]))).inactivity_timer
      = (run [Op.data 0, Op.tick]).inactivity_timer + 1 ∧
    (tick (tick (trigger_data_request 100 (run [Op.data 0, Op.tick])))).inactivity_timer
      = 0 :=
  ⟨(C3_tick_order_amended (run [Op.data 0, Op.tick]) 100
      (by decide) (by decide) (by decide)).2.1,
   (C3_tick_order_amended (run [Op.data 0, Op.tick]) 100
      (by decide) (by decide) (by decide)).2.2⟩

/-- C4 counterexample: `reset()` does NOT reproduce a freshly constructed
engine — already on a fresh engine, reset leaves a "Simulation reset" entry in
the event log, which a fresh engine does not have. -/
theorem C4_reset_counterexample : reset initEngine ≠ initEngine := by
  intro h
  have hlen := congrArg (fun x => x.event_log.length) h
  simp [reset, log_event, initEngine] at hlen

/-- C4 (amended): for every engine, `reset()` restores every observable field
to its construction-time value except the event log, which afterwards contains
exactly the single reset event, timestamped 0. -/
theorem C4_reset_amended (e : Engine) :
    reset e = log_event "Simulation reset" initEngine ∧
    (reset e).state = initEngine.state ∧
    (reset e).previous_state = initEngine.previous_state ∧
    (reset e).inactivity_timer = initEngine.inactivity_timer ∧
    (reset e).long_inactivity_timer = initEngine.long_inactivity_timer ∧
    (reset e).simulation_time = initEngine.simulation_time ∧
    (reset e).traffic_profile = initEngine.traffic_profile ∧
    (reset e).inactivity_threshold = initEngine.inactivity_threshold ∧
    (reset e).long_inactivity_threshold = initEngine.long_inactivity_threshold ∧
    (reset e).data_request = initEngine.data_request ∧
    (reset e).paging_request = initEngine.paging_request ∧
    (reset e).data_active = initEngine.data_active ∧
    (reset e).data_burst_duration = initEngine.data_burst_duration ∧
    (reset e).total_energy = initEngine.total_energy ∧
    (reset e).max_history_length = initEngine.max_history_length ∧
    (reset e).state_history = initEngine.state_history ∧
    (reset e).data_request_history = initEngine.data_request_history ∧
    (reset e).time_history = initEngine.time_history ∧
    (reset e).state_durations = initEngine.state_durations ∧
    (reset e).transition_count = initEngine.transition_count ∧
    (reset e).event_log = [((0 : ℚ), "Simulation reset")] := by
  refine ⟨rfl, rfl, rfl, rfl, rfl, rfl, rfl, rfl, rfl, rfl, rfl, rfl, rfl, rfl, rfl, rfl,
    rfl, rfl, rfl, rfl, ?_⟩
  rw [reset, log_event]
  simp [initEngine]

/-- C8: under every operation sequence the three history sequences have equal
lengths, never exceed the fixed capacity 100000, and the event log never
exceeds 1000 entries; moreover whenever the history stands at capacity,
`_record_history` evicts the oldest `capacity / 10` samples from all three
sequences in one bulk drop before appending. -/
theorem C8_bounded_buffers (ops : List Op) (e : Engine)
    (hcap : e.max_history_length ≤ e.state_history.length) :
    ((run ops).state_history.length = (run ops).time_history.length ∧
     (run ops).data_request_history.length = (run ops).time_history.length ∧
     (run ops).state_history.length ≤ 100000 ∧
     (run ops).max_history_length = 100000 ∧
     (run ops).event_log.length ≤ 1000) ∧
    ((record_history e).state_history =
        e.state_history.drop (e.max_history_length / 10) ++ [e.state.toNat] ∧
     (record_history e).data_request_history =
        e.data_request_history.drop (e.max_history_length / 10) ++
          [if e.data_active || e.data_request then 1 else 0] ∧
     (record_history e).time_history =
        e.time_history.drop (e.max_history_length / 10) ++
          [(e.simulation_time : ℚ) / 1000]) := by
  obtain ⟨hmax, hsl, hdl, hlen, hev, hsort, hbound⟩ := engineInv_run ops
  refine ⟨⟨hsl, hdl, by omega, hmax, hev⟩, ?_, ?_, ?_⟩
  · rw [record_history_state_history, if_pos hcap]
  · rw [record_history_data_request_history, if_pos hcap]
  · rw [record_history_time_history, if_pos hcap]

/-- C8 witness: the invariants hold for the fresh engine, and an engine at
capacity 10 evicts its oldest 1 sample from all three sequences on append. -/
theorem C8_bounded_buffers_witness :
    ((run []).state_history.length = (run []).time_history.length ∧
     (run []).data_request_history.length = (run []).time_history.length ∧
     (run []).state_history.length ≤ 100000 ∧
     (run []).max_history_length = 100000 ∧
     (run []).event_log.length ≤ 1000) ∧
    ((record_history capEngine).state_history =
        capEngine.state_history.drop (capEngine.max_history_length / 10) ++
          [capEngine.state.toNat] ∧
     (record_history capEngine).data_request_history =
        capEngine.data_request_history.drop (capEngine.max_history_length / 10) ++
          [if capEngine.data_active || capEngine.data_request then 1 else 0] ∧
     (record_history capEngine).time_history =
        capEngine.time_history.drop (capEngine.max_history_length / 10) ++
          [(capEngine.simulation_time : ℚ) / 1000]) :=
  C8_bounded_buffers [] capEngine (by decide)

/- C1 counterexample: with window 0 (a non-negative window) after two ticks,
`get_history` returns BOTH samples — including the one at time 0 — although the
latest sample's timestamp is 1/1000 and the claim's cutoff `latest − window`
is 1/1000 > 0: the code measures its cutoff from the current simulation time
(one tick past the last sample) and falls back to the whole history when no
sample reaches it. -/
unseal Rat.add Rat.sub Rat.mul Rat.inv in
theorem C1_get_history_counterexample :
    (get_history 0 (run [Op.tick, Op.tick])).time = [0, 1 / 1000] ∧
    (run [Op.tick, Op.tick]).time_history.getLast? = some (1 / 1000) ∧
    ¬ ((1 : ℚ) / 1000 - 0 ≤ 0) := by
  refine ⟨?_, ?_, ?_⟩ <;> decide

/-- C1 (amended): `get_history(w)` returns three equal-length arrays with
non-decreasing time, empty when there are no samples; the returned arrays are a
common contiguous suffix (drop at one index) of the stored histories, cut at
the first timestamp ≥ `current_time − w` where `current_time` is the CURRENT
simulation time in seconds (one tick past the latest sample); every sample
before the cut is strictly below that cutoff, every returned sample is at or
above it when at least one sample qualifies — and when NO sample qualifies the
entire history is returned. -/
theorem C1_get_history_amended (ops : List Op) (w : ℚ) (e : Engine) (he : e = run ops) :
    ((get_history w e).time.length = (get_history w e).state.length ∧
     (get_history w e).time.length = (get_history w e).data_request.length) ∧
    (get_history w e).time.Pairwise (· ≤ ·) ∧
    (e.time_history = [] → get_history w e = ⟨[], [], []⟩) ∧
    (∃ i, (get_history w e).time = e.time_history.drop i ∧
          (get_history w e).state = e.state_history.drop i ∧
          (get_history w e).data_request = e.data_request_history.drop i ∧
          ∀ t ∈ e.time_history.take i, t < (e.simulation_time : ℚ) / 1000 - w) ∧
    ((∃ t ∈ e.time_history, (e.simulation_time : ℚ) / 1000 - w ≤ t) →
      ∀ t ∈ (get_history w e).time, (e.simulation_time : ℚ) / 1000 - w ≤ t) ∧
    ((∀ t ∈ e.time_history, t < (e.simulation_time : ℚ) / 1000 - w) →
      (get_history w e).time = e.time_history) := by
  obtain ⟨hmax, hsl, hdl, hlen, hev, hsort, hbound⟩ : EngineInv e := he ▸ engineInv_run ops
  clear he
  by_cases hemp : e.time_history = []
  · have h1 : get_history w e = ⟨[], [], []⟩ := by
      rw [get_history, if_pos hemp]
    have hst : e.state_history = [] := by
      rw [← List.length_eq_zero, hsl, hemp]
      rfl
    have hdt : e.data_request_history = [] := by
      rw [← List.length_eq_zero, hdl, hemp]
      rfl
    refine ⟨⟨by simp [h1], by simp [h1]⟩, by simp [h1], fun _ => h1,
      ⟨0, by simp [h1, hemp], by simp [h1, hst], by simp [h1, hdt], by simp⟩, ?_, ?_⟩
    · rintro ⟨t, ht, -⟩
      rw [hemp] at ht
      exact absurd ht (List.not_mem_nil t)
    · intro _
      simp [h1, hemp]
  · have hgh : get_history w e =
        ⟨e.time_history.drop ((first_ge ((e.simulation_time : ℚ) / 1000 - w)
            e.time_history).getD 0),
         e.state_history.drop ((first_ge ((e.simulation_time : ℚ) / 1000 - w)
            e.time_history).getD 0),
         e.data_request_history.drop ((first_ge ((e.simulation_time : ℚ) / 1000 - w)
            e.time_history).getD 0)⟩ := by
      rw [get_history, if_neg hemp]
    rcases hfg : first_ge ((e.simulation_time : ℚ) / 1000 - w) e.time_history with _ | i
    · -- no sample at or after the cutoff: the whole history is returned
      have hnone := (first_ge_eq_none _ _).mp hfg
      rw [hfg] at hgh
      simp only [Option.getD_none, List.drop_zero] at hgh
      have htm : (get_history w e).time = e.time_history := by simp [hgh]
      have hsm : (get_history w e).state = e.state_history := by simp [hgh]
      have hdm : (get_history w e).data_request = e.data_request_history := by simp [hgh]
      refine ⟨⟨?_, ?_⟩, by rw [htm]; exact hsort, fun h => absurd h hemp,
        ⟨0, by simp [htm], by simp [hsm], by simp [hdm], by simp⟩, ?_, fun _ => htm⟩
      · rw [htm, hsm, hsl]
      · rw [htm, hdm, hdl]
      · rintro ⟨t, ht, hct⟩
        exact absurd hct (not_le.mpr (hnone t ht))
    · -- the scan found the first index at or after the cutoff
      obtain ⟨hi, htake, hget⟩ := first_ge_spec _ _ i hfg
      rw [hfg] at hgh
      simp only [Option.getD_some] at hgh
      have hall := sorted_drop_all_ge _ _ hsort i hi hget
      have htm : (get_history w e).time = e.time_history.drop i := by simp [hgh]
      have hsm : (get_history w e).state = e.state_history.drop i := by simp [hgh]
      have hdm : (get_history w e).data_request = e.data_request_history.drop i := by
        simp [hgh]
      refine ⟨⟨?_, ?_⟩, by rw [htm]; exact hsort.sublist (List.drop_sublist i _),
        fun h => absurd h hemp, ⟨i, htm, hsm, hdm, htake⟩,
        fun _ => by rw [htm]; exact hall, ?_⟩
      · rw [htm, hsm]
        simp only [List.length_drop]
        omega
      · rw [htm, hdm]
        simp only [List.length_drop]
        omega
      · intro hforall
        exact absurd (hforall _ (e.time_history.get_mem i hi)) (not_lt.mpr hget)

/-- C1 witness: the amended characterization instantiated at the engine after
one tick with a 10-second window. -/
theorem C1_get_history_amended_witness :
    ((get_history 10 (run [Op.tick])).time.length
        = (get_history 10 (run [Op.tick])).state.length ∧
     (get_history 10 (run [Op.tick])).time.length
        = (get_history 10 (run [Op.tick])).data_request.length) ∧
    (get_history 10 (run [Op.tick])).time.Pairwise (· ≤ ·) ∧
    ((run [Op.tick]).time_history = [] → get_history 10 (run [Op.tick]) = ⟨[], [], []⟩) ∧
    (∃ i, (get_history 10 (run [Op.tick])).time = (run [Op.tick]).time_history.drop i ∧
          (get_history 10 (run [Op.tick])).state = (run [Op.tick]).state_history.drop i ∧
          (get_history 10 (run [Op.tick])).data_request
            = (run [Op.tick]).data_request_history.drop i ∧
          ∀ t ∈ (run [Op.tick]).time_history.take i,
            t < ((run [Op.tick]).simulation_time : ℚ) / 1000 - 10) ∧
    ((∃ t ∈ (run [Op.tick]).time_history,
        ((run [Op.tick]).simulation_time : ℚ) / 1000 - 10 ≤ t) →
      ∀ t ∈ (get_history 10 (run [Op.tick])).time,
        ((run [Op.tick]).simulation_time : ℚ) / 1000 - 10 ≤ t) ∧
    ((∀ t ∈ (run [Op.tick]).time_history,
        t < ((run [Op.tick]).simulation_time : ℚ) / 1000 - 10) →
      (get_history 10 (run [Op.tick])).time = (run [Op.tick]).time_history) :=
  C1_get_history_amended [Op.tick] 10 (run [Op.tick]) rfl
